import Mathlib

/-!
Shallow embedding of the harvester in `update.py` and `utils.py` of the
tramites-bo repository, together with proofs about the properties of its
fetch pipeline and diff engine.

Conventions of the embedding:
* Machine I/O (HTTP requests) is modelled by oracles: a function from a
  reference (and, where retries matter, an attempt index) to the outcome the
  remote would produce.
* A Python exception is modelled as the `error` case of `Except String`.
* A pandas cell that is `NaN` (absent key after flattening, or JSON null) is
  modelled as `Option.none`; a cell lookup in a sparse row is an association
  list lookup.
* `float` delays are modelled by exact rationals: the only arithmetic the
  code performs on them is doubling, which is exact for Python floats in
  range.

The file is organised as definitions first, then the lemmas and theorems.
-/

namespace TramitesBo

/-- A listing entry produced by `listarTramites` (update.py lines 14-37):
the fields `id`, `nombre`, `slug` kept from each listed row. -/
structure RecordRef where
  id : Nat
  nombre : String
  slug : String
deriving DecidableEq, Repr

/-- A flattened detail record (the `datos` payload of one trámite): an `id`
plus sparse cells keyed by flattened column name. A key missing from `cells`
models pandas `NaN` after `pd.json_normalize`. -/
structure Record where
  id : Nat
  cells : List (String × String)
deriving DecidableEq, Repr

/-- A fetch failure: the listing entry annotated with the error string, as
built by the `except` branch of `fetch_one` (update.py line 66):
`errores.append({**tramite, "error": str(e)})`. -/
structure FetchError where
  ref : RecordRef
  error : String
deriving DecidableEq, Repr

/-! ### Bounded Fetcher: `getTramites` (update.py lines 50-73) -/

/-- One `fetch_one` completion (update.py lines 60-67): the single awaited
`getTramite` call either succeeds — its `datos` payload is appended to
`tramites` — or raises, in which case the reference plus error string is
appended to `errores`. There is no retry around the call. -/
def fetch_one (outcome : RecordRef → Except String Record) (tramite : RecordRef)
    (acc : List Record × List FetchError) : List Record × List FetchError :=
  match outcome tramite with
  | Except.ok r => (acc.1 ++ [r], acc.2)
  | Except.error e => (acc.1, acc.2 ++ [⟨tramite, e⟩])

/-- `getTramites` (update.py lines 50-73): fetches every reference of the
subset (`tramitesListado` itself when `max_tramites` is `none`, its first
`max_tramites` elements otherwise) and returns the pair
`(tramites, errores)` of accumulated successes and failures. Concurrent
completions only permute the append order; this embedding fixes listing
order, which the counting and membership claims do not depend on. -/
def getTramites (outcome : RecordRef → Except String Record)
    (tramitesListado : List RecordRef) (max_tramites : Option Nat) :
    List Record × List FetchError :=
  let subset := match max_tramites with
    | none => tramitesListado
    | some n => tramitesListado.take n
  subset.foldl (fun acc t => fetch_one outcome t acc) ([], [])

/-- The successes `getTramites` accumulates: the `datos` payload of every
reference whose fetch succeeded, in order. -/
def successesOf (outcome : RecordRef → Except String Record)
    (refs : List RecordRef) : List Record :=
  refs.filterMap (fun t => (outcome t).toOption)

/-- The failures `getTramites` accumulates: every reference whose fetch
raised, annotated with its error. -/
def failuresOf (outcome : RecordRef → Except String Record)
    (refs : List RecordRef) : List FetchError :=
  refs.filterMap (fun t =>
    match outcome t with
    | Except.ok _ => none
    | Except.error e => some ⟨t, e⟩)

/-! ### Retry Coordinator: `async_http_retry` (utils.py lines 14-43) -/

/-- The outcome of one attempted call of the wrapped coroutine, indexed by the
attempt number: a return value, a retryable exception (`aiohttp.ClientError`
or `asyncio.TimeoutError`, the classes the `except` clause catches), or any
other exception, which propagates uncaught. -/
inductive AttemptOutcome where
  | ok (v : Nat)
  | retryable (e : String)
  | fatal (e : String)
deriving DecidableEq, Repr

/-- What one run of the decorated wrapper did: the value returned or exception
raised, the number of times the wrapped coroutine was invoked, and the
successive `asyncio.sleep` delays, in order. -/
structure RetryTrace where
  result : Except String Nat
  calls : Nat
  waits : List ℚ
deriving Repr

/-- The attempt loop of `async_http_retry`'s `wrapper` (utils.py lines
24-41). `remaining` is `max_retries - attempt`; the loop breaks, then raises
the last exception, when a retryable failure happens at
`attempt == max_retries` (`remaining = 0`); otherwise it sleeps
`current_delay`, doubles it, and retries. A fatal outcome propagates at once
without being recorded for retry. -/
def retryAttempts (op : Nat → AttemptOutcome) :
    Nat → Nat → ℚ → Nat → List ℚ → RetryTrace
  | remaining, attempt, current_delay, calls, waits =>
    match op attempt with
    | AttemptOutcome.ok v => ⟨Except.ok v, calls + 1, waits⟩
    | AttemptOutcome.fatal e => ⟨Except.error e, calls + 1, waits⟩
    | AttemptOutcome.retryable e =>
      match remaining with
      | 0 => ⟨Except.error e, calls + 1, waits⟩
      | r + 1 =>
        retryAttempts op r (attempt + 1) (current_delay * 2) (calls + 1)
          (waits ++ [current_delay])

/-- `async_http_retry(max_retries, delay)` applied to a coroutine whose
attempt outcomes are given by `op`: the loop starts at attempt 0 with the
configured base delay. -/
def async_http_retry (max_retries : Nat) (delay : ℚ)
    (op : Nat → AttemptOutcome) : RetryTrace :=
  retryAttempts op max_retries 0 delay 0 []

/-! ### Run Orchestrator: the residual-retry loop of `main`
(update.py lines 179-186) -/

/-- The constant `RETRIES = 5` (update.py line 169), as the initial value of
the mutable counter; an `Int`, since the loop body keeps decrementing it. -/
def RETRIES : Int := 5

/-- The Run Orchestrator state at the top of the residual-retry loop:
accumulated successes, the current failure list, and the `RETRIES`
counter. -/
structure LoopState where
  tramites : List Record
  errores : List FetchError
  retries : Int
deriving Repr

/-- The `while` condition of the residual-retry loop, exactly as written in
the source: `while errores_tramites or RETRIES == 0` (update.py line 181). -/
def loopCond (s : LoopState) : Bool :=
  !s.errores.isEmpty || s.retries == 0

/-- One execution of the residual-retry loop body (update.py lines 182-185):
re-fetch the failure list, extend the successes, replace the failure list,
and decrement `RETRIES`. The whole-pass behaviour of the fetcher is the
oracle `fetch`. -/
def loopBody (fetch : List FetchError → List Record × List FetchError)
    (s : LoopState) : LoopState :=
  ⟨s.tramites ++ (fetch s.errores).1, (fetch s.errores).2, s.retries - 1⟩

/-- `n` steps of the loop: a step runs the body when the `while` condition
holds, and is a no-op once the loop has exited. -/
def loopIter (fetch : List FetchError → List Record × List FetchError) :
    Nat → LoopState → LoopState
  | 0, s => s
  | n + 1, s => if loopCond s then loopIter fetch n (loopBody fetch s) else s

/-- A fetcher behaviour in which every submitted reference fails on every
pass — for example, the network stays down for the rest of the run. -/
def failAllFetch : List FetchError → List Record × List FetchError :=
  fun errs => ([], errs)

/-- A concrete failure carried across passes in the non-termination run. -/
def stuckError : FetchError :=
  ⟨⟨1, "tramite uno", "tramite-uno"⟩, "timeout"⟩

/-- `fetch_one`'s interaction with the remote for one reference, with the
remote modelled attempt-indexed to make the invocation count observable: the
body awaits `getTramite` exactly once (update.py line 63) — update.py never
imports utils.py and `getTramite` carries no decorator — and `except
Exception` records any failure directly. Returns the recorded outcome and
the number of `getTramite` invocations made. -/
def fetch_one_calls (op : Nat → AttemptOutcome) : Except String Nat × Nat :=
  match op 0 with
  | AttemptOutcome.ok v => (Except.ok v, 1)
  | AttemptOutcome.retryable e => (Except.error e, 1)
  | AttemptOutcome.fatal e => (Except.error e, 1)

/-- A transient network failure: the first attempt times out, any retry
would succeed. -/
def transientOp : Nat → AttemptOutcome :=
  fun n => if n = 0 then AttemptOutcome.retryable "timeout" else AttemptOutcome.ok 7

/-! ### Diff Engine: `detectarModificaciones` and `detectarAdiciones`
(update.py lines 76-156) -/

/-- A snapshot as the pandas DataFrame `pd.json_normalize` produces: the
column set (the sparse union of flattened keys, `id` among them) and the
rows, each an id plus sparse cells. A key absent from a row's cells is a
`NaN` cell. -/
structure DF where
  cols : List String
  rows : List (Nat × List (String × String))
deriving DecidableEq, Repr

/-- The ids of a snapshot, in row order. -/
def DF.ids (df : DF) : List Nat :=
  df.rows.map Prod.fst

/-- The cells of the row with id `i` (`df.set_index("id").loc[i]`): the
first row carrying that id, if any. -/
def DF.row (df : DF) (i : Nat) : Option (List (String × String)) :=
  (df.rows.find? (fun r => r.1 == i)).map Prod.snd

/-- The value of column `c` for id `i`: `none` models a `NaN` cell (and an
id absent from the frame). -/
def DF.cell (df : DF) (i : Nat) (c : String) : Option String :=
  (df.row i).bind (fun cells => cells.lookup c)

/-- The columns of the id-indexed frame `df.set_index("id")`: `set_index`
turns the `id` column into the index, removing it from the columns. -/
def indexedCols (df : DF) : List String :=
  df.cols.filter (fun c => c != "id")

/-- `cols = [c for c in _df1.columns if c in _df2.columns and c != "id"]`
(update.py line 89). -/
def sharedCols (df1 df2 : DF) : List String :=
  (indexedCols df1).filter (fun c => (indexedCols df2).contains c && c != "id")

/-- `idx = _df1.index.intersection(_df2.index)` (update.py line 90): for
frames with unique indices, pandas keeps the order of the left index. -/
def sharedIds (df1 df2 : DF) : List Nat :=
  df1.ids.filter (fun i => df2.ids.contains i)

/-- pandas elementwise `old.ne(new)` on cells with `NaN` as `none`: `NaN`
compares unequal to everything, itself included. -/
def pdNe (old new : Option String) : Bool :=
  match old, new with
  | some a, some b => a != b
  | _, _ => true

/-- The mask of update.py line 97:
`modified = old.ne(new) & ~(old.isna() & new.isna())`. -/
def modifiedCell (old new : Option String) : Bool :=
  pdNe old new && !(old.isNone && new.isNone)

/-- One row of the modification log `modificaciones.csv` (update.py lines
100-110): `timestamp, id, entidad, nombre, columna, viejo, nuevo`. -/
structure ModEvent where
  timestamp : String
  id : Nat
  entidad : Option String
  nombre : Option String
  columna : String
  viejo : Option String
  nuevo : Option String
deriving DecidableEq, Repr

/-- The modification row built for id `i` and column `c` (update.py lines
100-110): `entidad` and `nombre` from the dicts of `_df1` (lines 87-88),
`viejo` and `nuevo` the two cell values verbatim. -/
def mkModEvent (df1 df2 : DF) (timestamp : String) (i : Nat) (c : String) :
    ModEvent :=
  ⟨timestamp, i, df1.cell i "entidad.nombre", df1.cell i "nombre", c,
    df1.cell i c, df2.cell i c⟩

/-- The modification events `detectarModificaciones` builds (update.py lines
94-111): column-major, as `pd.concat` of the per-column parts, each part the
ids of `idx` whose mask is set (`old.index[modified]`), one row each. -/
def modEvents (df1 df2 : DF) (timestamp : String) : List ModEvent :=
  (sharedCols df1 df2).flatMap (fun c =>
    ((sharedIds df1 df2).filter (fun i =>
        modifiedCell (df1.cell i c) (df2.cell i c))).map
      (fun i => mkModEvent df1 df2 timestamp i c))

/-- The sort key `["timestamp", "id", "columna"]` of update.py line 119, as
a boolean lexicographic comparison. -/
def modLogLe (a b : ModEvent) : Bool :=
  decide (a.timestamp < b.timestamp
    ∨ (a.timestamp = b.timestamp
        ∧ (a.id < b.id ∨ (a.id = b.id ∧ a.columna ≤ b.columna))))

/-- The save step of `detectarModificaciones` (update.py lines 113-121):
when no part qualified nothing is written; otherwise the new rows are
concatenated onto the existing log (when the file exists), sorted by
`(timestamp, id, columna)` and written back. `log` is the prior file
contents, the empty list standing for a missing file. -/
def modLogUpdate (log evs : List ModEvent) : List ModEvent :=
  if evs.isEmpty then log else (log ++ evs).mergeSort modLogLe

/-- `detectarModificaciones` (update.py lines 76-121), returning the new
contents of `modificaciones.csv`. The accesses `_df1.set_index("id")`,
`_df1.nombre.to_dict()` and `_df1["entidad.nombre"].to_dict()` (lines
86-88) raise when the respective column is missing from the frame. -/
def detectarModificaciones (log : List ModEvent) (df1 df2 : DF)
    (timestamp : String) : Except String (List ModEvent) :=
  if ("id" ∈ df1.cols ∧ "id" ∈ df2.cols
      ∧ "nombre" ∈ df1.cols ∧ "entidad.nombre" ∈ df1.cols) then
    Except.ok (modLogUpdate log (modEvents df1 df2 timestamp))
  else
    Except.error "KeyError: column missing in set_index or to_dict"

/-- One row of the membership log `adiciones.csv` (update.py lines 135-140):
`timestamp, tipo, id, entidad, nombre` with `tipo` either `"aparece"` or
`"desaparece"`. -/
structure MemEvent where
  timestamp : String
  tipo : String
  id : Nat
  entidad : Option String
  nombre : Option String
deriving DecidableEq, Repr

/-- `formatear` (update.py lines 135-140) applied to the rows of `df` whose
id survives the membership filter: one event per such row, carrying its
`entidad.nombre` and `nombre` cells. -/
def formatear (rows : List (Nat × List (String × String))) (evento : String)
    (timestamp : String) : List MemEvent :=
  rows.map (fun r =>
    ⟨timestamp, evento, r.1, r.2.lookup "entidad.nombre", r.2.lookup "nombre"⟩)

/-- The membership events `detectarAdiciones` builds (update.py lines
143-148): the current rows whose id is absent from the previous snapshot as
`"aparece"`, then the previous rows whose id is absent from the current one
as `"desaparece"`. -/
def memEvents (df1 df2 : DF) (timestamp : String) : List MemEvent :=
  formatear (df2.rows.filter (fun r => !(df1.ids.contains r.1))) "aparece" timestamp
    ++ formatear (df1.rows.filter (fun r => !(df2.ids.contains r.1))) "desaparece"
        timestamp

/-- Python `len` applied to `eventos.shape[0]` (update.py line 151):
`eventos.shape[0]` is an `int`, and `len` of an `int` raises `TypeError`
unconditionally. -/
def pyLenOfInt (_ : Nat) : Except String Nat :=
  Except.error "TypeError: object of type int has no len()"

/-- The sort key `["timestamp", "id", "tipo"]` of update.py line 156. -/
def memLogLe (a b : MemEvent) : Bool :=
  decide (a.timestamp < b.timestamp
    ∨ (a.timestamp = b.timestamp
        ∧ (a.id < b.id ∨ (a.id = b.id ∧ a.tipo ≤ b.tipo))))

/-- `detectarAdiciones` (update.py lines 124-156), returning the new
contents of `adiciones.csv`. The column selections in `formatear` and the
`isin` filters (lines 136, 145-146) raise `KeyError` when a selected column
is missing from either frame; otherwise the function reaches
`print(f"{len(eventos.shape[0])} ...")` (line 151), whose argument raises
`TypeError`, so control never reaches the save step of lines 152-156. -/
def detectarAdiciones (log : List MemEvent) (df1 df2 : DF)
    (timestamp : String) : Except String (List MemEvent) :=
  if ("id" ∈ df1.cols ∧ "id" ∈ df2.cols
      ∧ "entidad.nombre" ∈ df1.cols ∧ "nombre" ∈ df1.cols
      ∧ "entidad.nombre" ∈ df2.cols ∧ "nombre" ∈ df2.cols) then
    let eventos := memEvents df1 df2 timestamp
    match pyLenOfInt eventos.length with
    | Except.error e => Except.error e
    | Except.ok _ =>
      if eventos.isEmpty then Except.ok log
      else Except.ok ((log ++ eventos).mergeSort memLogLe)
  else Except.error "KeyError: column missing in formatear or isin"

/-- The previous snapshot with ids 1, 2, 3 from the spec's membership
example, with `entidad.nombre` and `nombre` cells. -/
def snapA : DF :=
  ⟨["id", "entidad.nombre", "nombre"],
    [(1, [("entidad.nombre", "E1"), ("nombre", "N1")]),
     (2, [("entidad.nombre", "E2"), ("nombre", "N2")]),
     (3, [("entidad.nombre", "E3"), ("nombre", "N3")])]⟩

/-- The current snapshot with ids 2, 3, 4 from the spec's membership
example. -/
def snapB : DF :=
  ⟨["id", "entidad.nombre", "nombre"],
    [(2, [("entidad.nombre", "E2"), ("nombre", "N2")]),
     (3, [("entidad.nombre", "E3"), ("nombre", "N3")]),
     (4, [("entidad.nombre", "E4"), ("nombre", "N4")])]⟩

/-- The previous snapshot of the spec's modification example: record 5 with
`estado = "activo"`. -/
def snapM1 : DF :=
  ⟨["id", "entidad.nombre", "nombre", "estado"],
    [(5, [("entidad.nombre", "E5"), ("nombre", "X"), ("estado", "activo")])]⟩

/-- The current snapshot of the spec's modification example: record 5 with
`estado = "inactivo"`. -/
def snapM2 : DF :=
  ⟨["id", "entidad.nombre", "nombre", "estado"],
    [(5, [("entidad.nombre", "E5"), ("nombre", "X"), ("estado", "inactivo")])]⟩

/-! ### Snapshot persistence in `main` (update.py lines 197-206) -/

/-- `sorted(tramites, key=lambda d: d["id"])` (update.py line 198): Python
`sorted`, ascending and stable on the key. -/
def sortTramites (tramites : List Record) : List Record :=
  tramites.mergeSort (fun a b => decide (a.id ≤ b.id))

/-- The write loop of update.py lines 199-206 for one file: the file is
overwritten with the current data only when the data is non-empty
(`if data:`); an empty dataset leaves the file as it was. `none` models a
file that does not exist. -/
def writeJsonl {α : Type} (prior : Option (List α)) (data : List α) :
    Option (List α) :=
  if data.isEmpty then prior else some data

/-- The `tramites.jsonl` contents after the persistence step of `main`:
the sorted successes when there are any, the prior contents otherwise. -/
def tramitesFileAfter (prior : Option (List Record)) (tramites : List Record) :
    Option (List Record) :=
  writeJsonl prior (sortTramites tramites)

/-- The `errores.jsonl` contents after the persistence step of `main`. -/
def erroresFileAfter (prior : Option (List FetchError))
    (errores : List FetchError) : Option (List FetchError) :=
  writeJsonl prior errores

/-! ### The semaphore discipline of the Bounded Fetcher
(update.py lines 56-70) -/

/-- The scheduling state of one gathered `fetch_one` task with respect to
`sema = asyncio.Semaphore(max_concurrent)`: not yet holding a slot, holding
a slot (its detail fetch is in flight), or finished — `async with sema`
releases the slot on the success and the failure path alike, since the
`try/except` inside it catches every exception. -/
inductive TaskState where
  | pending
  | running
  | done
deriving DecidableEq, Repr

/-- The number of detail fetches in flight: tasks currently holding a
semaphore slot. -/
def inFlight (ts : List TaskState) : Nat :=
  ts.countP (fun t => t == TaskState.running)

/-- The cooperative scheduler steps of the gathered `fetch_one` tasks under
the semaphore: a pending task acquires a slot only when fewer than
`cap = max_concurrent` slots are held (otherwise `async with sema` keeps it
suspended), and a running task finishes — success or terminal failure — and
releases its slot. -/
inductive SemStep (cap : Nat) : List TaskState → List TaskState → Prop
  | acquire (ts : List TaskState) (i : Nat) (hi : i < ts.length)
      (hp : ts.get ⟨i, hi⟩ = TaskState.pending)
      (hcap : inFlight ts < cap) :
      SemStep cap ts (ts.set i TaskState.running)
  | release (ts : List TaskState) (i : Nat) (hi : i < ts.length)
      (hr : ts.get ⟨i, hi⟩ = TaskState.running) :
      SemStep cap ts (ts.set i TaskState.done)

/-- The scheduler states reachable by
`asyncio.gather(*(fetch_one(t, client) for t in subset))` over `n` tasks,
starting from the state in which every task awaits the semaphore. -/
def SemReachable (cap n : Nat) (ts : List TaskState) : Prop :=
  Relation.ReflTransGen (SemStep cap) (List.replicate n TaskState.pending) ts

/-! ### Lemmas and theorems -/

lemma getTramites_foldl_spec (outcome : RecordRef → Except String Record) :
    ∀ (refs : List RecordRef) (acc : List Record × List FetchError),
      refs.foldl (fun acc t => fetch_one outcome t acc) acc =
        (acc.1 ++ successesOf outcome refs, acc.2 ++ failuresOf outcome refs) := by
  intro refs
  induction refs with
  | nil => intro acc; simp [successesOf, failuresOf]
  | cons t ts ih =>
    intro acc
    simp only [List.foldl_cons, ih]
    cases h : outcome t with
    | ok r =>
      simp [fetch_one, h, successesOf, failuresOf, List.filterMap_cons, Except.toOption]
    | error e =>
      simp [fetch_one, h, successesOf, failuresOf, List.filterMap_cons, Except.toOption]

lemma getTramites_eq (outcome : RecordRef → Except String Record)
    (refs : List RecordRef) :
    getTramites outcome refs none =
      (successesOf outcome refs, failuresOf outcome refs) := by
  simpa using getTramites_foldl_spec outcome refs ([], [])

lemma successesOf_length_add_failuresOf_length
    (outcome : RecordRef → Except String Record) (refs : List RecordRef) :
    (successesOf outcome refs).length + (failuresOf outcome refs).length
      = refs.length := by
  induction refs with
  | nil => simp [successesOf, failuresOf]
  | cons t ts ih =>
    cases h : outcome t with
    | ok r =>
      simp only [successesOf, failuresOf, List.filterMap_cons, h, Except.toOption,
        List.length_cons] at *
      omega
    | error e =>
      simp only [successesOf, failuresOf, List.filterMap_cons, h, Except.toOption,
        List.length_cons] at *
      omega

/-- C1: with the default `max_tramites` (`None`), every reference submitted
to `getTramites` ends up in exactly one of the two returned lists — the
successes are precisely the payloads of the references whose fetch
succeeded, in order, the failures precisely the references whose fetch
raised — so the lengths of the two outputs sum to the number of submitted
references. -/
theorem getTramites_no_ref_lost (outcome : RecordRef → Except String Record)
    (refs : List RecordRef) :
    (getTramites outcome refs none).1.length
        + (getTramites outcome refs none).2.length = refs.length ∧
    (getTramites outcome refs none).1 = successesOf outcome refs ∧
    (getTramites outcome refs none).2 = failuresOf outcome refs := by
  rw [getTramites_eq]
  exact ⟨successesOf_length_add_failuresOf_length outcome refs, rfl, rfl⟩

lemma retryAttempts_allRetryable (e : Nat → String) :
    ∀ (remaining attempt : Nat) (d : ℚ) (calls : Nat) (waits : List ℚ),
      retryAttempts (fun n => AttemptOutcome.retryable (e n))
          remaining attempt d calls waits =
        ⟨Except.error (e (attempt + remaining)), calls + remaining + 1,
          waits ++ (List.range remaining).map (fun k => d * 2 ^ k)⟩ := by
  intro remaining
  induction remaining with
  | zero => intro attempt d calls waits; simp [retryAttempts]
  | succ r ih =>
    intro attempt d calls waits
    rw [retryAttempts]
    simp only [ih]
    have h3 : waits ++ [d] ++ (List.range r).map (fun k => d * 2 * 2 ^ k)
        = waits ++ (List.range (r + 1)).map (fun k => d * 2 ^ k) := by
      rw [List.range_succ_eq_map, List.append_assoc]
      congr 1
      rw [List.map_cons, List.map_map, List.singleton_append]
      congr 1
      · rw [pow_zero, mul_one]
      · refine List.map_congr_left ?_
        intro k _
        show d * 2 * 2 ^ k = d * 2 ^ (k + 1)
        ring
    rw [h3]
    congr 2
    · exact congrArg (fun n => e n) (by omega)
    · omega

/-- C6: the Retry Coordinator. First conjunct: a coroutine failing with a
retryable error on attempts 0 and 1 and succeeding afterwards, under
`max_retries = 3`, returns the success and is invoked exactly 3 times,
waiting `delay` then `delay * 2` before the two retries. Second conjunct:
a coroutine failing with retryable errors on every attempt is invoked
exactly `max_retries + 1` times, the last failure is raised to the caller,
and the wait before the `(k+1)`-st retry is `delay * 2 ^ k`. -/
theorem async_http_retry_spec :
    (∀ (d : ℚ) (e : String) (v : Nat),
        async_http_retry 3 d
            (fun n => if n < 2 then AttemptOutcome.retryable e else AttemptOutcome.ok v)
          = ⟨Except.ok v, 3, [d, d * 2]⟩) ∧
    (∀ (max_retries : Nat) (d : ℚ) (e : Nat → String),
        async_http_retry max_retries d (fun n => AttemptOutcome.retryable (e n))
          = ⟨Except.error (e max_retries), max_retries + 1,
              (List.range max_retries).map (fun k => d * 2 ^ k)⟩) := by
  constructor
  · intro d e v
    rfl
  · intro max_retries d e
    simpa [async_http_retry] using
      retryAttempts_allRetryable e max_retries 0 d 0 []

lemma loopIter_failAll (n : Nat) :
    ∀ s : LoopState, s.errores ≠ [] →
      loopIter failAllFetch n s = ⟨s.tramites, s.errores, s.retries - n⟩ := by
  induction n with
  | zero => intro s _; simp [loopIter]
  | succ n ih =>
    intro s hs
    have hcond : loopCond s = true := by
      simp [loopCond, List.isEmpty_iff, hs]
    have hbody : loopBody failAllFetch s
        = ⟨s.tramites, s.errores, s.retries - 1⟩ := by
      simp [loopBody, failAllFetch]
    rw [loopIter, hcond, if_pos rfl, hbody,
      ih ⟨s.tramites, s.errores, s.retries - 1⟩ hs]
    refine congrArg (fun r => LoopState.mk s.tramites s.errores r) ?_
    push_cast
    ring

/-- C5: the residual-retry loop of `main` does not terminate for every
behaviour of the fetcher. First conjunct: under a fetcher for which every
reference keeps failing, the `while errores_tramites or RETRIES == 0`
condition still holds after any number `n` of passes — in particular after
more than the configured `RETRIES = 5` passes — because a non-empty failure
list alone keeps the condition true while `RETRIES` decrements without
bound. Second conjunct: the loop also fails to stop as soon as the failure
set is empty — with no failures left but the counter at 0, the `RETRIES ==
0` disjunct keeps the condition true for one more pass. -/
theorem main_retry_loop_bug :
    (∀ n : Nat,
        loopCond (loopIter failAllFetch n ⟨[], [stuckError], RETRIES⟩) = true) ∧
    loopCond ⟨[], [], 0⟩ = true := by
  constructor
  · intro n
    rw [loopIter_failAll n ⟨[], [stuckError], RETRIES⟩ (by simp)]
    simp [loopCond]
  · simp [loopCond]

lemma modifiedCell_self (v : Option String) : modifiedCell v v = false := by
  cases v <;> simp [modifiedCell, pdNe]

lemma modifiedCell_eq_true_iff (o n : Option String) :
    modifiedCell o n = true ↔ o ≠ n := by
  cases o <;> cases n <;> simp [modifiedCell, pdNe]

lemma modEvents_self (df : DF) (ts : String) : modEvents df df ts = [] := by
  unfold modEvents
  rw [List.flatMap_eq_nil_iff]
  intro c _
  rw [List.map_eq_nil_iff, List.filter_eq_nil_iff]
  intro i _
  simp [modifiedCell_self]

lemma memEvents_self (df : DF) (ts : String) : memEvents df df ts = [] := by
  unfold memEvents formatear
  have h : df.rows.filter (fun r => !(df.ids.contains r.1)) = [] := by
    rw [List.filter_eq_nil_iff]
    intro r hr
    have : r.1 ∈ df.ids := List.mem_map_of_mem Prod.fst hr
    simp [List.elem_iff, this, List.contains]
  rw [h]
  simp

lemma detectarAdiciones_never_ok (log : List MemEvent) (df1 df2 : DF)
    (ts : String) :
    ∃ msg, detectarAdiciones log df1 df2 ts = Except.error msg := by
  unfold detectarAdiciones
  split
  · exact ⟨_, rfl⟩
  · exact ⟨_, rfl⟩

/-- C2: at the spec's membership example — previous snapshot `snapA` with
ids 1, 2, 3 and current snapshot `snapB` with ids 2, 3, 4 — the events
`detectarAdiciones` builds are exactly the appearance of id 4 and the
disappearance of id 1, each carrying the entity name and record name from
the snapshot holding the record; but the function does not return normally:
it raises `TypeError` at `len(eventos.shape[0])` (update.py line 151) before
reaching its save step, on these snapshots as on every other input. -/
theorem detectarAdiciones_events_but_raises :
    memEvents snapA snapB "t"
      = [⟨"t", "aparece", 4, some "E4", some "N4"⟩,
         ⟨"t", "desaparece", 1, some "E1", some "N1"⟩] ∧
    detectarAdiciones [] snapA snapB "t"
      = Except.error "TypeError: object of type int has no len()" := by
  constructor
  · rfl
  · rfl

/-- C3: diffing the concrete snapshot `snapA` against itself builds zero
modification events and zero membership events, and `detectarModificaciones`
returns the modification log unchanged; but the self-diff does not complete
without error — `detectarAdiciones` raises the `TypeError` of update.py
line 151 before its save step, so the run crashes rather than finishing
cleanly (the membership log is, at least, also left unwritten). -/
theorem self_diff_zero_events_but_raises :
    modEvents snapA snapA "t" = [] ∧
    memEvents snapA snapA "t" = [] ∧
    detectarModificaciones [] snapA snapA "t" = Except.ok [] ∧
    detectarAdiciones [] snapA snapA "t"
      = Except.error "TypeError: object of type int has no len()" := by
  refine ⟨modEvents_self snapA "t", memEvents_self snapA "t", ?_, ?_⟩
  · rfl
  · rfl

lemma mem_sharedCols (df1 df2 : DF) (c : String) :
    c ∈ sharedCols df1 df2 ↔ c ∈ df1.cols ∧ c ∈ df2.cols ∧ c ≠ "id" := by
  simp only [sharedCols, indexedCols, List.mem_filter, Bool.and_eq_true,
    List.contains, List.elem_iff, bne_iff_ne, ne_eq]
  tauto

lemma mem_sharedIds (df1 df2 : DF) (i : Nat) :
    i ∈ sharedIds df1 df2 ↔ i ∈ df1.ids ∧ i ∈ df2.ids := by
  simp only [sharedIds, List.mem_filter, List.contains, List.elem_iff]

lemma sharedCols_nodup (df1 df2 : DF) (hc : df1.cols.Nodup) :
    (sharedCols df1 df2).Nodup :=
  (hc.filter _).filter _

lemma sharedIds_nodup (df1 df2 : DF) (h1 : df1.ids.Nodup) :
    (sharedIds df1 df2).Nodup :=
  h1.filter _

lemma nodup_pairs (cols : List String) (f : String → List Nat)
    (hcols : cols.Nodup) (hf : ∀ c, (f c).Nodup) :
    (cols.flatMap (fun c => (f c).map (fun i => (i, c)))).Nodup := by
  induction cols with
  | nil => simp
  | cons c cs ih =>
    rw [List.flatMap_cons]
    have hd := List.nodup_cons.mp hcols
    apply List.Nodup.append
    · exact (hf c).map (fun a b hab => by simpa using congrArg Prod.fst hab)
    · exact ih hd.2
    · intro x hx1 hx2
      obtain ⟨i, _, rfl⟩ := List.mem_map.mp hx1
      obtain ⟨c2, hc2, hx⟩ := List.mem_flatMap.mp hx2
      obtain ⟨j, _, heq⟩ := List.mem_map.mp hx
      have : c2 = c := congrArg Prod.snd heq
      exact hd.1 (this ▸ hc2)

lemma mem_modEvents (df1 df2 : DF) (ts : String) (e : ModEvent) :
    e ∈ modEvents df1 df2 ts ↔
      ∃ c ∈ sharedCols df1 df2, ∃ i ∈ sharedIds df1 df2,
        modifiedCell (df1.cell i c) (df2.cell i c) = true
          ∧ e = mkModEvent df1 df2 ts i c := by
  constructor
  · intro h
    obtain ⟨c, hc, h2⟩ := List.mem_flatMap.mp h
    obtain ⟨i, hi, rfl⟩ := List.mem_map.mp h2
    have hif := List.mem_filter.mp hi
    exact ⟨c, hc, i, hif.1, hif.2, rfl⟩
  · rintro ⟨c, hc, i, hi, hmod, rfl⟩
    exact List.mem_flatMap.mpr
      ⟨c, hc, List.mem_map.mpr ⟨i, List.mem_filter.mpr ⟨hi, hmod⟩, rfl⟩⟩

lemma modEvents_pairs_nodup (df1 df2 : DF) (ts : String)
    (h1 : df1.ids.Nodup) (hc : df1.cols.Nodup) :
    ((modEvents df1 df2 ts).map (fun e => (e.id, e.columna))).Nodup := by
  have hmap : (modEvents df1 df2 ts).map (fun e => (e.id, e.columna))
      = (sharedCols df1 df2).flatMap
          (fun c => ((sharedIds df1 df2).filter
              (fun i => modifiedCell (df1.cell i c) (df2.cell i c))).map
            (fun i => (i, c))) := by
    simp only [modEvents, List.map_flatMap, List.map_map]
    rfl
  rw [hmap]
  exact nodup_pairs _ _ (sharedCols_nodup df1 df2 hc)
    (fun c => (sharedIds_nodup df1 df2 h1).filter _)

/-- C4: for snapshots obeying the snapshot invariants (unique ids in each,
unique column names), `detectarModificaciones` builds exactly one
modification event per pair of an id present in both snapshots and a column
present in both snapshots and distinct from the identity column whose two
values are not equal and not both absent — no duplicate event for any
(id, column) pair, an event exists precisely for the qualifying pairs (in
particular a pair whose two values are both absent gives no event), and the
event carries the old and new values verbatim, with the entity and record
names from the previous snapshot and the shared timestamp. -/
theorem detectarModificaciones_one_event_per_pair
    (df1 df2 : DF) (ts : String) (i : Nat) (c : String)
    (h1 : df1.ids.Nodup) (_h2 : df2.ids.Nodup) (hc : df1.cols.Nodup) :
    ((modEvents df1 df2 ts).map (fun e => (e.id, e.columna))).Nodup ∧
    ((∃ e ∈ modEvents df1 df2 ts, e.id = i ∧ e.columna = c) ↔
      (i ∈ df1.ids ∧ i ∈ df2.ids ∧ c ∈ df1.cols ∧ c ∈ df2.cols ∧ c ≠ "id"
        ∧ df1.cell i c ≠ df2.cell i c
        ∧ ¬(df1.cell i c = none ∧ df2.cell i c = none))) ∧
    (∀ e ∈ modEvents df1 df2 ts, e.id = i → e.columna = c →
      e = ⟨ts, i, df1.cell i "entidad.nombre", df1.cell i "nombre", c,
            df1.cell i c, df2.cell i c⟩) := by
  refine ⟨modEvents_pairs_nodup df1 df2 ts h1 hc, ?_, ?_⟩
  · constructor
    · rintro ⟨e, he, hei, hec⟩
      obtain ⟨c2, hc2, i2, hi2, hmod, rfl⟩ := (mem_modEvents df1 df2 ts e).mp he
      have hi2e : i2 = i := hei
      have hc2e : c2 = c := hec
      rw [hi2e] at hi2
      rw [hc2e] at hc2
      rw [hi2e, hc2e] at hmod
      have hne : df1.cell i c ≠ df2.cell i c :=
        (modifiedCell_eq_true_iff _ _).mp hmod
      obtain ⟨ha1, ha2, ha3⟩ := (mem_sharedCols df1 df2 c).mp hc2
      obtain ⟨hb1, hb2⟩ := (mem_sharedIds df1 df2 i).mp hi2
      refine ⟨hb1, hb2, ha1, ha2, ha3, hne, ?_⟩
      rintro ⟨hx, hy⟩
      exact hne (hx.trans hy.symm)
    · rintro ⟨hi1, hi2, hc1, hc2, hcid, hne, -⟩
      refine ⟨mkModEvent df1 df2 ts i c, ?_, rfl, rfl⟩
      exact (mem_modEvents df1 df2 ts _).mpr
        ⟨c, (mem_sharedCols df1 df2 c).mpr ⟨hc1, hc2, hcid⟩,
          i, (mem_sharedIds df1 df2 i).mpr ⟨hi1, hi2⟩,
          (modifiedCell_eq_true_iff _ _).mpr hne, rfl⟩
  · intro e he hei hec
    obtain ⟨c2, _, i2, _, _, rfl⟩ := (mem_modEvents df1 df2 ts e).mp he
    have hi2e : i2 = i := hei
    have hc2e : c2 = c := hec
    rw [mkModEvent, hi2e, hc2e]

/-- Witness for C4 at the spec's modification example: previous record
`{id 5, nombre "X", estado "activo"}`, current record
`{id 5, nombre "X", estado "inactivo"}`, queried at the pair
`(5, "estado")`. -/
theorem detectarModificaciones_one_event_per_pair_witness :
    ((modEvents snapM1 snapM2 "t").map (fun e => (e.id, e.columna))).Nodup ∧
    ((∃ e ∈ modEvents snapM1 snapM2 "t", e.id = 5 ∧ e.columna = "estado") ↔
      (5 ∈ snapM1.ids ∧ 5 ∈ snapM2.ids ∧ "estado" ∈ snapM1.cols
        ∧ "estado" ∈ snapM2.cols ∧ "estado" ≠ "id"
        ∧ snapM1.cell 5 "estado" ≠ snapM2.cell 5 "estado"
        ∧ ¬(snapM1.cell 5 "estado" = none ∧ snapM2.cell 5 "estado" = none))) ∧
    (∀ e ∈ modEvents snapM1 snapM2 "t", e.id = 5 → e.columna = "estado" →
      e = ⟨"t", 5, snapM1.cell 5 "entidad.nombre", snapM1.cell 5 "nombre",
            "estado", snapM1.cell 5 "estado", snapM2.cell 5 "estado"⟩) :=
  detectarModificaciones_one_event_per_pair snapM1 snapM2 "t" 5 "estado"
    (by decide) (by decide) (by decide)

/-- C7: in the code as written, an individual detail fetch is not wrapped by
the Retry Coordinator. For a reference whose fetch times out on the first
attempt and would succeed on a retry, `fetch_one` invokes `getTramite`
exactly once and records the reference as a fetch error for the pass,
whereas the Retry Coordinator applied to the same attempt outcomes (any
`max_retries ≥ 1`, here 3, base delay 1) would have returned the success
after 2 invocations. -/
theorem fetch_one_is_not_retried :
    fetch_one_calls transientOp = (Except.error "timeout", 1) ∧
    async_http_retry 3 1 transientOp = ⟨Except.ok 7, 2, [1]⟩ := by
  constructor
  · rfl
  · rfl

/-- C8, counterexample: the persistence step of `main` writes a file only
when its dataset is non-empty (`if data:`, update.py line 202), so a run
that ends with zero unresolved failures leaves `errores.jsonl` exactly as
it was — here still holding the stale `stuckError` of a previous run
instead of being overwritten to contain nothing. -/
theorem erroresFile_stale_counterexample :
    erroresFileAfter (some [stuckError]) [] = some [stuckError] ∧
    some [stuckError] ≠ some ([] : List FetchError) := by
  constructor
  · rfl
  · decide

/-- C8, amended: `errores.jsonl` is overwritten with exactly the run's
still-unresolved failures whenever at least one failure remains; a run with
zero unresolved failures does not write the file at all, leaving whatever a
previous run put there. -/
theorem erroresFile_overwrite_amended (prior : Option (List FetchError))
    (e : FetchError) (errs : List FetchError) :
    erroresFileAfter prior (e :: errs) = some (e :: errs) ∧
    erroresFileAfter prior [] = prior := by
  constructor
  · rfl
  · rfl

lemma sortTramites_perm (l : List Record) : (sortTramites l).Perm l :=
  List.mergeSort_perm l _

lemma sortTramites_sorted (l : List Record) :
    (sortTramites l).Pairwise (fun a b => a.id ≤ b.id) := by
  have h : List.Pairwise
      (fun a b : Record => (decide (a.id ≤ b.id)) = true)
      (l.mergeSort (fun a b => decide (a.id ≤ b.id))) := by
    apply List.sorted_mergeSort
    · intro a b c hab hbc
      simp only [decide_eq_true_eq] at *
      omega
    · intro a b
      simp only [Bool.or_eq_true, decide_eq_true_eq]
      omega
  exact h.imp (fun hab => by simpa using hab)

lemma sortTramites_pairwise_lt (l : List Record)
    (hnd : (l.map Record.id).Nodup) :
    (sortTramites l).Pairwise (fun a b => a.id < b.id) := by
  have hle := sortTramites_sorted l
  have hnd2 : ((sortTramites l).map Record.id).Nodup :=
    (((sortTramites_perm l).map Record.id).nodup_iff).mpr hnd
  have hne : (sortTramites l).Pairwise (fun a b => a.id ≠ b.id) :=
    List.pairwise_map.mp hnd2
  exact (hle.and hne).imp (fun h => lt_of_le_of_ne h.1 h.2)

lemma records_eq_of_perm_of_ltSorted (l1 l2 : List Record) (hp : l1.Perm l2)
    (h1 : l1.Pairwise (fun a b => a.id < b.id))
    (h2 : l2.Pairwise (fun a b => a.id < b.id)) : l1 = l2 := by
  have ha : IsAntisymm Record (fun a b => a.id < b.id ∨ a = b) := by
    constructor
    intro a b hab hba
    rcases hab with h | h
    · rcases hba with h' | h'
      · omega
      · exact h'.symm
    · exact h
  exact @List.eq_of_perm_of_sorted Record (fun a b => a.id < b.id ∨ a = b)
    ha l1 l2 hp (h1.imp Or.inl) (h2.imp Or.inl)

/-- C10: when `main` persists a non-empty snapshot, `tramites.jsonl` holds
exactly the fetched records sorted ascending by `id` — a permutation of the
successes, pairwise non-decreasing on `id` — and for snapshots with unique
ids (the snapshot invariant) the persisted list is the same for every
completion order of the concurrent fetches; with no fetched records the
file is not written at all. -/
theorem main_snapshot_persist_sorted
    (prior : Option (List Record)) (l other : List Record)
    (hne : l ≠ []) (hnd : (l.map Record.id).Nodup) (hperm : other.Perm l) :
    tramitesFileAfter prior l = some (sortTramites l) ∧
    (sortTramites l).Pairwise (fun a b => a.id ≤ b.id) ∧
    (sortTramites l).Perm l ∧
    sortTramites other = sortTramites l ∧
    tramitesFileAfter prior [] = prior := by
  have hsne : sortTramites l ≠ [] := by
    intro h
    apply hne
    have hpnil := sortTramites_perm l
    rw [h] at hpnil
    exact hpnil.nil_eq.symm
  refine ⟨?_, sortTramites_sorted l, sortTramites_perm l, ?_,
    by simp [tramitesFileAfter, writeJsonl, sortTramites, List.mergeSort_nil]⟩
  · simp only [tramitesFileAfter, writeJsonl]
    rw [if_neg]
    intro h
    exact hsne (List.isEmpty_iff.mp h)
  · have hndo : (other.map Record.id).Nodup :=
      ((hperm.map Record.id).nodup_iff).mpr hnd
    refine records_eq_of_perm_of_ltSorted _ _ ?_ ?_ ?_
    · exact (sortTramites_perm other).trans (hperm.trans (sortTramites_perm l).symm)
    · exact sortTramites_pairwise_lt other hndo
    · exact sortTramites_pairwise_lt l hnd

/-- A concrete fetched record with id 1. -/
def recUno : Record := ⟨1, [("nombre", "uno")]⟩

/-- A concrete fetched record with id 2. -/
def recDos : Record := ⟨2, [("nombre", "dos")]⟩

/-- Witness for C10: the two-record snapshot `[recDos, recUno]` (completion
order 2 then 1) against the other completion order `[recUno, recDos]`, with
no prior snapshot file. -/
theorem main_snapshot_persist_sorted_witness :
    tramitesFileAfter none [recDos, recUno] = some (sortTramites [recDos, recUno]) ∧
    (sortTramites [recDos, recUno]).Pairwise (fun a b => a.id ≤ b.id) ∧
    (sortTramites [recDos, recUno]).Perm [recDos, recUno] ∧
    sortTramites [recUno, recDos] = sortTramites [recDos, recUno] ∧
    tramitesFileAfter none [] = none :=
  main_snapshot_persist_sorted none [recDos, recUno] [recUno, recDos]
    (by decide) (by decide) (by decide)

lemma inFlight_replicate_pending (n : Nat) :
    inFlight (List.replicate n TaskState.pending) = 0 := by
  simp [inFlight, List.countP_replicate]

/-- C9: under the counting-semaphore discipline of `getTramites`, every
scheduler state reachable from the initial all-pending state of the
gathered `fetch_one` tasks has at most `cap = max_concurrent` detail
fetches in flight: a task beyond the bound stays pending until a slot
frees, and a slot is released exactly when its fetch finishes, in success
or in terminal failure. -/
theorem bounded_fetcher_at_most_cap_in_flight (cap n : Nat)
    (ts : List TaskState) (h : SemReachable cap n ts) :
    inFlight ts ≤ cap := by
  induction h with
  | refl => simp [inFlight_replicate_pending]
  | tail _ hstep ih =>
    cases hstep with
    | acquire i hi hp hcap =>
      rw [List.get_eq_getElem] at hp
      simp only [inFlight] at ih hcap ⊢
      rw [List.countP_set _ _ _ _ hi, hp]
      simp
      omega
    | release i hi hr =>
      rw [List.get_eq_getElem] at hr
      simp only [inFlight] at ih ⊢
      rw [List.countP_set _ _ _ _ hi, hr]
      simp
      omega

/-- Witness for C9: with `max_concurrent = 2` and three tasks, the state
after two acquisitions — both slots held, the third task still pending —
is reachable, and its in-flight count is within the bound. -/
theorem bounded_fetcher_at_most_cap_in_flight_witness :
    inFlight [TaskState.running, TaskState.running, TaskState.pending] ≤ 2 :=
  bounded_fetcher_at_most_cap_in_flight 2 3
    [TaskState.running, TaskState.running, TaskState.pending]
    (Relation.ReflTransGen.tail
      (Relation.ReflTransGen.tail Relation.ReflTransGen.refl
        (SemStep.acquire (List.replicate 3 TaskState.pending) 0
          (by decide) (by decide) (by decide)))
      (SemStep.acquire
        ((List.replicate 3 TaskState.pending).set 0 TaskState.running) 1
        (by decide) (by decide) (by decide)))

end TramitesBo
